import Mathlib

/-!
Shallow embedding of the sensor-monitoring system
(`src/sensors/distance_sensor.py`, `src/sensors/motion_sensor.py`,
`src/sensors/temperature_humidity_sensor.py`, `src/auth/nfc_reader.py`,
`src/main.py`).

Python floats are embedded as exact rationals (`ℚ`); fallible values as
`Option`.  Hardware interaction (GPIO levels, the DHT transducer, the NFC
frontend) is passed in as explicit environment arguments, so every
function is a pure, executable Lean definition of the corresponding
Python method.
-/

/-! ## Rounding

Python's `round(x, n)` rounds to `n` decimal places.  We embed it over `ℚ`
as scaling, rounding to the nearest integer, and unscaling.  (Python
breaks exact ties towards even; Mathlib's `round` breaks them upwards.
No property proved below depends on tie behaviour.) -/

/-- `round(x, 1)` of Python, over exact rationals. -/
def round1 (x : ℚ) : ℚ := ((round (x * 10) : ℤ) : ℚ) / 10

/-- `round(x, 2)` of Python, over exact rationals. -/
def round2 (x : ℚ) : ℚ := ((round (x * 100) : ℤ) : ℚ) / 100

/-- Rounding to the nearest integer is weakly monotone. -/
theorem round_mono_rat {a b : ℚ} (h : a ≤ b) : round a ≤ round b := by
  rw [round_eq, round_eq]
  exact Int.floor_le_floor (by linarith)

/-- Rounding to decimal places is weakly monotone and fixes integers, so an
integer-bounded band is preserved.  Generic form used for both `round1`
(scale 10) and `round2` (scale 100). -/
theorem roundScale_mem_Icc (s : ℕ) (hs : 0 < s) (m n : ℤ) {x : ℚ}
    (hm : (m : ℚ) ≤ x) (hn : x ≤ (n : ℚ)) :
    (m : ℚ) ≤ ((round (x * s) : ℤ) : ℚ) / s ∧ ((round (x * s) : ℤ) : ℚ) / s ≤ (n : ℚ) := by
  have hs0 : (0 : ℚ) < (s : ℚ) := by exact_mod_cast hs
  have hms : (m : ℚ) * s ≤ x * s := by
    exact mul_le_mul_of_nonneg_right hm (le_of_lt hs0)
  have hns : x * s ≤ (n : ℚ) * s := by
    exact mul_le_mul_of_nonneg_right hn (le_of_lt hs0)
  have hlow : (m * s : ℤ) ≤ round (x * s) := by
    have h1 : round ((m * s : ℤ) : ℚ) ≤ round (x * s) := by
      apply round_mono_rat
      push_cast
      exact hms
    rwa [round_intCast] at h1
  have hhigh : round (x * s) ≤ (n * s : ℤ) := by
    have h1 : round (x * s) ≤ round ((n * s : ℤ) : ℚ) := by
      apply round_mono_rat
      push_cast
      exact hns
    rwa [round_intCast] at h1
  constructor
  · rw [le_div_iff₀ hs0]
    exact_mod_cast hlow
  · rw [div_le_iff₀ hs0]
    exact_mod_cast hhigh

/-! ## DistanceSensor (`src/sensors/distance_sensor.py`)

`measure_distance` drives the trigger pin and times the echo pulse.  The
hardware interaction is abstracted as the echo pulse duration the timing
loops observe: `none` when either edge-wait times out (or GPIO raises, both
caught and turned into `-1`), `some d` for an observed pulse of `d`
seconds.  The rest of the method — the `* 17150` conversion, the
`[2, 450]` cm validity band, `round(·, 2)`, and the `-1` error sentinel —
is translated literally. -/

namespace DistanceSensor

/-- `DistanceSensor.measure_distance`: returns the distance in cm, or the
sentinel `-1` on timeout / out-of-range. -/
def measure_distance (echo : Option ℚ) : ℚ :=
  match echo with
  | none => -1
  | some pulse_duration =>
    let distance := pulse_duration * 17150
    if 2 ≤ distance ∧ distance ≤ 450 then round2 distance else -1

/-- `DistanceSensor.measure_multiple`: takes `count` single measurements
(the `i`-th observing `echo i`), keeps those `> 0`, and returns the
rounded average, or `-1` if none were valid.  (`delay` only sleeps.) -/
def measure_multiple (echo : ℕ → Option ℚ) (count : ℕ) : ℚ :=
  let measurements :=
    ((List.range count).map fun i => measure_distance (echo i)).filter fun d => 0 < d
  if measurements.isEmpty then -1
  else round2 (measurements.sum / measurements.length)

/-- Every result of `measure_distance` is the sentinel `-1` or a value in
`[2, 450]`. -/
theorem measure_distance_cases (echo : Option ℚ) :
    measure_distance echo = -1 ∨
      (2 ≤ measure_distance echo ∧ measure_distance echo ≤ 450) := by
  match echo with
  | none => exact Or.inl rfl
  | some d =>
    by_cases h : 2 ≤ d * 17150 ∧ d * 17150 ≤ 450
    · right
      have := roundScale_mem_Icc 100 (by norm_num) 2 450 (x := d * 17150)
        (by exact_mod_cast h.1) (by exact_mod_cast h.2)
      simpa [measure_distance, h, round2] using this
    · left
      simp [measure_distance, h]

end DistanceSensor

/-- The duration band `[2/17150, 450/17150]` corresponds exactly to the
distance band `[2, 450]` under the `* 17150` conversion. -/
theorem duration_band_iff (d : ℚ) :
    (2/17150 ≤ d ∧ d ≤ 450/17150) ↔ (2 ≤ d * 17150 ∧ d * 17150 ≤ 450) := by
  have h0 : (0 : ℚ) < 17150 := by norm_num
  rw [div_le_iff₀ h0, le_div_iff₀ h0]

/-- C1: for every echo pulse duration `d` with `2/17150 ≤ d ≤ 450/17150`,
`measure_distance` converts it as `distance = d * 17150` and returns a
numeric distance within `[2, 450]` cm; for every duration outside that
band the result is the error sentinel `-1` (the code's encoding of
`OutOfRange`), never a numeric distance value. -/
theorem C1_distance_conversion (d : ℚ) :
    (2/17150 ≤ d ∧ d ≤ 450/17150 →
      2 ≤ DistanceSensor.measure_distance (some d) ∧
        DistanceSensor.measure_distance (some d) ≤ 450) ∧
    (¬(2/17150 ≤ d ∧ d ≤ 450/17150) →
      DistanceSensor.measure_distance (some d) = -1) := by
  constructor
  · intro hband
    have h := (duration_band_iff d).mp hband
    have hb := roundScale_mem_Icc 100 (by norm_num) 2 450 (x := d * 17150)
      (by exact_mod_cast h.1) (by exact_mod_cast h.2)
    simpa [DistanceSensor.measure_distance, h, round2] using hb
  · intro hband
    have h : ¬(2 ≤ d * 17150 ∧ d * 17150 ≤ 450) := fun hc =>
      hband ((duration_band_iff d).mpr hc)
    simp [DistanceSensor.measure_distance, h]

/-- Witness for C1 at the concrete durations `1/100` s (in band,
converts to `171.5` cm) and `1` s (out of band, yields `-1`). -/
theorem C1_distance_conversion_witness :
    (2/17150 ≤ (1/100 : ℚ) ∧ (1/100 : ℚ) ≤ 450/17150) ∧
    (2 ≤ DistanceSensor.measure_distance (some (1/100)) ∧
      DistanceSensor.measure_distance (some (1/100)) ≤ 450) ∧
    DistanceSensor.measure_distance (some 1) = -1 :=
  ⟨by norm_num,
    (C1_distance_conversion (1/100)).1 (by norm_num),
    (C1_distance_conversion 1).2 (by norm_num)⟩

/-- The `distance > 0` filter in `measure_multiple` keeps exactly the
non-sentinel results: every `measure_distance` result is `-1` or lies in
`[2, 450]`, so `0 < d` and `d ≠ -1` agree on it. -/
theorem measure_multiple_filter_eq (echo : ℕ → Option ℚ) (count : ℕ) :
    ((List.range count).map fun i => DistanceSensor.measure_distance (echo i)).filter
        (fun d => 0 < d) =
      ((List.range count).map fun i => DistanceSensor.measure_distance (echo i)).filter
        (fun d => d ≠ -1) := by
  apply List.filter_congr
  intro x hx
  rcases List.mem_map.mp hx with ⟨i, -, rfl⟩
  rcases DistanceSensor.measure_distance_cases (echo i) with h | h
  · rw [h]; norm_num
  · have h0 : (0 : ℚ) < DistanceSensor.measure_distance (echo i) := by linarith [h.1]
    have hne : DistanceSensor.measure_distance (echo i) ≠ -1 := by
      intro hc; rw [hc] at h0; norm_num at h0
    simp [h0, hne]

/-- C7: `measure_multiple echo count` performs `count` single measurements,
discards the failed ones (sentinel `-1`), and returns the (2-decimal
rounded) arithmetic mean of exactly the successful subset; it returns the
`-1` failure sentinel (`NoValidSamples`) exactly when zero measurements
succeeded. -/
theorem C7_measure_multiple_average (echo : ℕ → Option ℚ) (count : ℕ) :
    DistanceSensor.measure_multiple echo count =
      (let succ := ((List.range count).map fun i =>
          DistanceSensor.measure_distance (echo i)).filter (fun d => d ≠ -1)
        if succ.isEmpty then -1 else round2 (succ.sum / succ.length)) := by
  rw [DistanceSensor.measure_multiple, measure_multiple_filter_eq]

/-! ## MotionSensor (`src/sensors/motion_sensor.py`)

`detect_motion` reads the GPIO line; a raised GPIO exception is caught and
turned into `False`, so the line state is passed in as `Option Bool`
(`none` = the read raised).  `wait_for_motion` loops forever:

```
start_time = time.time()
while True:
    if self.detect_motion(): return True
    if timeout and (time.time() - start_time) > timeout: return False
    time.sleep(0.1)
```

We embed the loop with explicit fuel (`none` = the loop is still running
after `fuel` iterations), the line state at iteration `k` as `line k`, and
the elapsed time `time.time() - start_time` observed at iteration `k`'s
check as `elapsed k`.  Python's truthiness test `if timeout and …` is
false both for `timeout = None` and for `timeout = 0`. -/

namespace MotionSensor

/-- `MotionSensor.detect_motion`: the instantaneous line state, `False`
when the GPIO read raised. -/
def detect_motion (line : Option Bool) : Bool :=
  match line with
  | some motion_state => motion_state
  | none => false

/-- The `timeout and (time.time() - start_time) > timeout` test:
`timeout = None` and `timeout = 0` are falsy, so the whole conjunction is
skipped for them. -/
def timeout_elapsed (timeout : Option ℚ) (elapsed : ℚ) : Bool :=
  match timeout with
  | none => false
  | some t => if t = 0 then false else decide (elapsed > t)

/-- `MotionSensor.wait_for_motion`, with fuel: iteration `k` observes line
state `line k` and elapsed time `elapsed k`; `none` means the loop has not
returned within `fuel` iterations. -/
def wait_for_motion (line : ℕ → Option Bool) (elapsed : ℕ → ℚ)
    (timeout : Option ℚ) : ℕ → ℕ → Option Bool
  | 0, _ => none
  | fuel + 1, k =>
    if detect_motion (line k) then some true
    else if timeout_elapsed timeout (elapsed k) then some false
    else wait_for_motion line elapsed timeout fuel (k + 1)

end MotionSensor

/-- C4 (code evaluated at the failing input): with `timeout = 0` and the
motion line constantly low, `wait_for_motion` never returns — for every
fuel bound and every starting iteration the loop is still running — even
though each iteration's elapsed time (`k/10`, one 100 ms sleep per
iteration) exceeds the timeout from the first sleep on.  `0` is falsy in
`if timeout and …`, so the timeout branch is unreachable, contradicting
the claim that `timeout = 0` returns immediately with the instantaneous
(false) line state. -/
theorem C4_wait_for_motion_timeout_zero_spins (fuel k : ℕ) :
    MotionSensor.wait_for_motion (fun _ => some false) (fun i => (i : ℚ) / 10)
      (some 0) fuel k = none := by
  induction fuel generalizing k with
  | zero => rfl
  | succ n ih =>
    rw [MotionSensor.wait_for_motion]
    simp only [MotionSensor.detect_motion, MotionSensor.timeout_elapsed]
    simpa using ih (k + 1)

/-- `round(·, 1)` fixes exact tenths. -/
theorem round1_tenths (n : ℤ) : round1 ((n : ℚ) / 10) = (n : ℚ) / 10 := by
  rw [round1, div_mul_cancel₀ _ (by norm_num : (10 : ℚ) ≠ 0), round_intCast]

/-! ## TemperatureHumiditySensor (`src/sensors/temperature_humidity_sensor.py`)

`read_data` makes a single call
`Adafruit_DHT.read_retry(self.sensor, self.pin, retries=3)` and then
validates the returned ranges.  The library call is external to this
repository, so it is modelled from its documented behaviour below. -/

namespace TemperatureHumiditySensor

/-- Model of the external `Adafruit_DHT.read_retry` library call (not part
of this repository): it attempts up to `retries` platform reads and
returns the first attempt whose humidity and temperature are both
present; when every attempt returns missing values it yields
`(None, None)`.  `responses k` is the `(humidity, temperature)` pair of
the `k`-th platform read, `none` when that read yields missing values.
The library itself performs no range validation. -/
def read_retry (responses : ℕ → Option (ℚ × ℚ)) : ℕ → ℕ → Option (ℚ × ℚ)
  | 0, _ => none
  | r + 1, k =>
    match responses k with
    | some ht => some ht
    | none => read_retry responses r (k + 1)

/-- `TemperatureHumiditySensor.read_data`: one `read_retry` call with
`retries=3`, then the range validation
`-40 <= temperature <= 80 and 0 <= humidity <= 100`; a valid reading is
returned as `(round(temperature,1), round(humidity,1))`, everything else
as `(None, None)` (embedded as `none`). -/
def read_data (responses : ℕ → Option (ℚ × ℚ)) : Option (ℚ × ℚ) :=
  match read_retry responses 3 0 with
  | some (humidity, temperature) =>
    if -40 ≤ temperature ∧ temperature ≤ 80 ∧ 0 ≤ humidity ∧ humidity ≤ 100 then
      some (round1 temperature, round1 humidity)
    else none
  | none => none

/-- The transducer responses of the claim's scenario: the first attempt
returns `(H=50, T=200)` (temperature out of physical range), every later
attempt returns the valid `(H=48.1, T=22.3)`. -/
def scenario_responses : ℕ → Option (ℚ × ℚ) := fun k =>
  if k = 0 then some (50, 200) else some (481/10, 223/10)

/-- Responses whose first attempt yields missing values and whose later
attempts return the valid `(H=48.1, T=22.3)`. -/
def missing_then_valid : ℕ → Option (ℚ × ℚ) := fun k =>
  if k = 0 then none else some (481/10, 223/10)

end TemperatureHumiditySensor

/-- C5 counterexample: when the library-level retry's first attempt returns
the out-of-range `(T=200.0, H=50.0)`, `read_data` returns the failure
marker `(None, None)` — not the valid `(22.3, 48.1)` of a later attempt —
because `read_retry` repeats only on missing values and the range check is
applied once, after it returns. -/
theorem C5_out_of_range_not_retried :
    TemperatureHumiditySensor.read_data TemperatureHumiditySensor.scenario_responses = none ∧
    TemperatureHumiditySensor.read_data TemperatureHumiditySensor.scenario_responses ≠
      some (223/10, 481/10) := by
  have h : TemperatureHumiditySensor.read_data
      TemperatureHumiditySensor.scenario_responses = none := by
    rw [TemperatureHumiditySensor.read_data]
    norm_num [TemperatureHumiditySensor.read_retry,
      TemperatureHumiditySensor.scenario_responses]
  exact ⟨h, by rw [h]; exact fun hc => Option.noConfusion hc⟩

/-- C5 (amended): a response is treated as valid only if
`-40 ≤ T ≤ 80` and `0 ≤ H ≤ 100` — every successful `read_data` result
lies in those ranges — but an out-of-range response is discarded without
any further retry: the driver-level retry (`read_retry`, `retries=3`)
repeats only while the transducer returns missing values.  In the
scenario with a missing first attempt and a valid `(22.3, 48.1)` second
attempt, `read_data` returns `(22.3, 48.1)`. -/
theorem C5_read_data_validation :
    (∀ (responses : ℕ → Option (ℚ × ℚ)) (t h : ℚ),
      TemperatureHumiditySensor.read_data responses = some (t, h) →
        -40 ≤ t ∧ t ≤ 80 ∧ 0 ≤ h ∧ h ≤ 100) ∧
    TemperatureHumiditySensor.read_data TemperatureHumiditySensor.missing_then_valid =
      some (223/10, 481/10) := by
  constructor
  · intro responses t h hread
    rw [TemperatureHumiditySensor.read_data] at hread
    rcases hr : TemperatureHumiditySensor.read_retry responses 3 0 with - | ⟨hum, temp⟩
    · rw [hr] at hread; exact absurd hread (by simp)
    · rw [hr] at hread
      by_cases hv : -40 ≤ temp ∧ temp ≤ 80 ∧ 0 ≤ hum ∧ hum ≤ 100
      · dsimp only at hread
        rw [if_pos hv] at hread
        have hpair := Option.some.inj hread
        have ht : round1 temp = t := congrArg Prod.fst hpair
        have hh : round1 hum = h := congrArg Prod.snd hpair
        have hT := roundScale_mem_Icc 10 (by norm_num) (-40) 80 (x := temp)
          (by exact_mod_cast hv.1) (by exact_mod_cast hv.2.1)
        have hH := roundScale_mem_Icc 10 (by norm_num) 0 100 (x := hum)
          (by exact_mod_cast hv.2.2.1) (by exact_mod_cast hv.2.2.2)
        rw [← ht, ← hh]
        simp only [round1]
        refine ⟨by exact_mod_cast hT.1, by exact_mod_cast hT.2,
          by exact_mod_cast hH.1, by exact_mod_cast hH.2⟩
      · simp [hv] at hread
  · rw [TemperatureHumiditySensor.read_data]
    have hr : TemperatureHumiditySensor.read_retry
        TemperatureHumiditySensor.missing_then_valid 3 0 = some (481/10, 223/10) := by
      norm_num [TemperatureHumiditySensor.read_retry,
        TemperatureHumiditySensor.missing_then_valid]
    rw [hr]
    have h1 : round1 (223/10 : ℚ) = 223/10 := by simpa using round1_tenths 223
    have h2 : round1 (481/10 : ℚ) = 481/10 := by simpa using round1_tenths 481
    norm_num [h1, h2]

/-- Witness for C5 (amended): the validity bounds applied to the concrete
scenario result `(22.3, 48.1)`. -/
theorem C5_read_data_validation_witness :
    -40 ≤ (223/10 : ℚ) ∧ (223/10 : ℚ) ≤ 80 ∧ 0 ≤ (481/10 : ℚ) ∧ (481/10 : ℚ) ≤ 100 :=
  C5_read_data_validation.1 TemperatureHumiditySensor.missing_then_valid
    (223/10) (481/10) C5_read_data_validation.2

/-! ## SHA-256 (for `NFCReader.hash_card_id`)

`hash_card_id` is `hashlib.sha256(card_id.encode()).hexdigest()[:16]`.
We implement SHA-256 (FIPS 180-4) over byte lists, with 32-bit words as
naturals reduced mod `2^32`, and UTF-8 encoding of the card-id string. -/

namespace SHA256

/-- Right rotation of a 32-bit word. -/
def rotr (x n : ℕ) : ℕ := ((x >>> n) ||| (x <<< (32 - n))) % 2 ^ 32

/-- `Ch(x, y, z) = (x ∧ y) ⊕ (¬x ∧ z)` with 32-bit complement. -/
def ch (x y z : ℕ) : ℕ := (x &&& y) ^^^ ((x ^^^ (2 ^ 32 - 1)) &&& z)

/-- `Maj(x, y, z)`. -/
def maj (x y z : ℕ) : ℕ := (x &&& y) ^^^ (x &&& z) ^^^ (y &&& z)

/-- `Σ₀`. -/
def bigS0 (x : ℕ) : ℕ := rotr x 2 ^^^ rotr x 13 ^^^ rotr x 22

/-- `Σ₁`. -/
def bigS1 (x : ℕ) : ℕ := rotr x 6 ^^^ rotr x 11 ^^^ rotr x 25

/-- `σ₀`. -/
def smallS0 (x : ℕ) : ℕ := rotr x 7 ^^^ rotr x 18 ^^^ (x >>> 3)

/-- `σ₁`. -/
def smallS1 (x : ℕ) : ℕ := rotr x 17 ^^^ rotr x 19 ^^^ (x >>> 10)

/-- The 64 round constants. -/
def K : List ℕ :=
  [1116352408, 1899447441, 3049323471, 3921009573, 961987163,
   1508970993, 2453635748, 2870763221, 3624381080, 310598401,
   607225278, 1426881987, 1925078388, 2162078206, 2614888103,
   3248222580, 3835390401, 4022224774, 264347078, 604807628,
   770255983, 1249150122, 1555081692, 1996064986, 2554220882,
   2821834349, 2952996808, 3210313671, 3336571891, 3584528711,
   113926993, 338241895, 666307205, 773529912, 1294757372,
   1396182291, 1695183700, 1986661051, 2177026350, 2456956037,
   2730485921, 2820302411, 3259730800, 3345764771, 3516065817,
   3600352804, 4094571909, 275423344, 430227734, 506948616,
   659060556, 883997877, 958139571, 1322822218, 1537002063,
   1747873779, 1955562222, 2024104815, 2227730452, 2361852424,
   2428436474, 2756734187, 3204031479, 3329325298]

/-- The initial hash value. -/
def H0 : List ℕ :=
  [1779033703, 3144134277, 1013904242, 2773480762,
   1359893119, 2600822924, 528734635, 1541459225]

/-- Message-schedule extension: `acc` holds the schedule so far, most
recent word first; each step prepends
`σ₁(W[t-2]) + W[t-7] + σ₀(W[t-15]) + W[t-16] mod 2^32`. -/
def extendW : ℕ → List ℕ → List ℕ
  | 0, acc => acc
  | n + 1, acc =>
    let w := (smallS1 (acc.getD 1 0) + acc.getD 6 0 +
      smallS0 (acc.getD 14 0) + acc.getD 15 0) % 2 ^ 32
    extendW n (w :: acc)

/-- The 64-word message schedule of one 16-word block. -/
def schedule (block : List ℕ) : List ℕ := (extendW 48 block.reverse).reverse

/-- One compression round: state is `[a,b,c,d,e,f,g,h]`, `kw` the round
constant paired with the schedule word. -/
def roundStep (st : List ℕ) (kw : ℕ × ℕ) : List ℕ :=
  match st with
  | [a, b, c, d, e, f, g, h] =>
    let t1 := (h + bigS1 e + ch e f g + kw.1 + kw.2) % 2 ^ 32
    let t2 := (bigS0 a + maj a b c) % 2 ^ 32
    [(t1 + t2) % 2 ^ 32, a, b, c, (d + t1) % 2 ^ 32, e, f, g]
  | _ => st

/-- Compress one 16-word block into the running hash. -/
def compress (hs : List ℕ) (block : List ℕ) : List ℕ :=
  let final := (K.zip (schedule block)).foldl roundStep hs
  List.zipWith (fun x y => (x + y) % 2 ^ 32) hs final

/-- Pad a byte message per FIPS 180-4: append `0x80`, zero bytes to reach
56 mod 64, then the bit length as 8 big-endian bytes. -/
def padMessage (msg : List ℕ) : List ℕ :=
  let len := msg.length
  let zeros := (119 - len % 64) % 64
  let bitLen := 8 * len
  msg ++ 0x80 :: List.replicate zeros 0 ++
    ((List.range 8).map fun i => bitLen >>> (8 * (7 - i)) % 256)

/-- Big-endian 4-byte groups to 32-bit words. -/
def toWords : List ℕ → List ℕ
  | b0 :: b1 :: b2 :: b3 :: rest =>
    (((b0 * 256 + b1) * 256 + b2) * 256 + b3) :: toWords rest
  | _ => []

/-- Split a word list into 16-word blocks (the padded message is always a
whole number of blocks). -/
def toBlocks : List ℕ → List (List ℕ)
  | w0 :: w1 :: w2 :: w3 :: w4 :: w5 :: w6 :: w7 ::
      w8 :: w9 :: w10 :: w11 :: w12 :: w13 :: w14 :: w15 :: rest =>
    [w0, w1, w2, w3, w4, w5, w6, w7, w8, w9, w10, w11, w12, w13, w14, w15] ::
      toBlocks rest
  | _ => []

/-- SHA-256 of a byte message, as the eight 32-bit words of the digest. -/
def sha256Words (msg : List ℕ) : List ℕ :=
  (toBlocks (toWords (padMessage msg))).foldl compress H0

/-- A hex digit character. -/
def hexDigit (n : ℕ) : Char :=
  if n < 10 then Char.ofNat (48 + n) else Char.ofNat (87 + n)

/-- A 32-bit word as 8 lowercase hex characters. -/
def wordHex (w : ℕ) : List Char :=
  (List.range 8).map fun i => hexDigit (w >>> (4 * (7 - i)) % 16)

/-- `hashlib.sha256(·).hexdigest()`: the 64-character lowercase hex
digest of a byte message. -/
def hexdigest (msg : List ℕ) : List Char := (sha256Words msg).flatMap wordHex

/-- UTF-8 encoding of one code point (`str.encode()` is UTF-8). -/
def utf8Bytes (c : ℕ) : List ℕ :=
  if c < 0x80 then [c]
  else if c < 0x800 then [0xc0 + c / 64, 0x80 + c % 64]
  else if c < 0x10000 then [0xe0 + c / 4096, 0x80 + c / 64 % 64, 0x80 + c % 64]
  else [0xf0 + c / 262144, 0x80 + c / 4096 % 64, 0x80 + c / 64 % 64, 0x80 + c % 64]

/-- `card_id.encode()`: the UTF-8 bytes of a string. -/
def strBytes (s : String) : List ℕ :=
  s.data.foldr (fun c acc => utf8Bytes c.toNat ++ acc) []

end SHA256

/-! ## NFCReader (`src/auth/nfc_reader.py`)

The authorized-card store is a Python `set` of hashed ids, embedded as a
`Finset String`.  Only the digest of a card id is ever inserted. -/

namespace NFCReader

/-- `NFCReader.hash_card_id`:
`hashlib.sha256(card_id.encode()).hexdigest()[:16]`. -/
def hash_card_id (card_id : String) : String :=
  ((SHA256.hexdigest (SHA256.strBytes card_id)).take 16).asString

/-- The default card ids of `load_authorized_cards`. -/
def default_cards : List String := ["01020304", "ABCDEF01", "12345678"]

/-- `NFCReader.load_authorized_cards`: the authorized set after startup —
the digests of the three default cards. -/
def load_authorized_cards : Finset String :=
  default_cards.foldl (fun cards card_id => insert (hash_card_id card_id) cards) ∅

/-- `NFCReader.validate_card`: `if not card_id: return False` rejects the
falsy ids (`None` and `""`); otherwise membership of the digest in the
authorized set.  The input is `Option String` because `read_card_id`
returns `None` on failure. -/
def validate_card (authorized_cards : Finset String) (card_id : Option String) : Bool :=
  match card_id with
  | none => false
  | some s =>
    if s = "" then false
    else decide (hash_card_id s ∈ authorized_cards)

/-- `NFCReader.add_authorized_card`: insert the digest into the set. -/
def add_authorized_card (authorized_cards : Finset String) (card_id : String) :
    Finset String :=
  insert (hash_card_id card_id) authorized_cards

/-- `NFCReader.remove_authorized_card`: remove the digest if present,
otherwise a reported no-op. -/
def remove_authorized_card (authorized_cards : Finset String) (card_id : String) :
    Finset String :=
  if hash_card_id card_id ∈ authorized_cards then
    authorized_cards.erase (hash_card_id card_id)
  else authorized_cards

end NFCReader

/-- C3 counterexample: for the empty card id the claimed
validate-iff-membership equivalence and the add-then-validate round trip
both fail: after `add_authorized_card` of `""` its digest is in the
authorized set, yet `validate_card` still returns `false` (the
`if not card_id` guard rejects every falsy id before the membership
test). -/
theorem C3_empty_id_breaks_roundtrip :
    NFCReader.validate_card
        (NFCReader.add_authorized_card NFCReader.load_authorized_cards "") (some "") =
      false ∧
    NFCReader.hash_card_id "" ∈
      NFCReader.add_authorized_card NFCReader.load_authorized_cards "" :=
  ⟨rfl, Finset.mem_insert_self _ _⟩

/-- C3 (amended): for every nonempty card id, `validate_card` returns
`true` iff the truncated digest of the id is in the authorized set;
adding the id and then validating it returns `true`, and removing it and
then validating returns `false`.  (For the empty or absent id,
`validate_card` is `false` regardless of the set, so the round trip holds
only for nonempty ids.) -/
theorem C3_validate_roundtrip (cards : Finset String) (card_id : String)
    (hne : card_id ≠ "") :
    (NFCReader.validate_card cards (some card_id) = true ↔
      NFCReader.hash_card_id card_id ∈ cards) ∧
    NFCReader.validate_card (NFCReader.add_authorized_card cards card_id)
      (some card_id) = true ∧
    NFCReader.validate_card (NFCReader.remove_authorized_card cards card_id)
      (some card_id) = false := by
  refine ⟨?_, ?_, ?_⟩
  · simp [NFCReader.validate_card, hne]
  · simp [NFCReader.validate_card, hne, NFCReader.add_authorized_card]
  · rw [NFCReader.remove_authorized_card]
    by_cases h : NFCReader.hash_card_id card_id ∈ cards
    · simp [NFCReader.validate_card, hne, h, Finset.not_mem_erase]
    · simp [NFCReader.validate_card, hne, h]

/-- Witness for C3 (amended) at the concrete nonempty id `"A"` over the
empty authorized set. -/
theorem C3_validate_roundtrip_witness :
    ("A" : String) ≠ "" ∧
    ((NFCReader.validate_card ∅ (some "A") = true ↔
        NFCReader.hash_card_id "A" ∈ (∅ : Finset String)) ∧
      NFCReader.validate_card (NFCReader.add_authorized_card ∅ "A") (some "A") = true ∧
      NFCReader.validate_card (NFCReader.remove_authorized_card ∅ "A") (some "A") = false) :=
  ⟨by decide, C3_validate_roundtrip ∅ "A" (by decide)⟩

/-- C10: `validate_card` returns `false` for the absent id (`None`) and
for the empty id, whatever the authorized set holds — even immediately
after `add_authorized_card` was called with the same empty id. -/
theorem C10_falsy_id_always_rejected (cards : Finset String) :
    NFCReader.validate_card cards none = false ∧
    NFCReader.validate_card cards (some "") = false ∧
    NFCReader.validate_card (NFCReader.add_authorized_card cards "") (some "") = false :=
  ⟨rfl, rfl, rfl⟩

/-! ## SensorMonitoringSystem (`src/main.py`)

`read_sensors` fills a dict that starts as
`{motion_detected: False, distance_cm: 0.0, temperature_c: 0.0,
humidity_percent: 0.0, system_status: 'running'}` and overwrites each
field from the corresponding sensor call.  Each driver catches its own
exceptions (`detect_motion` → `False`, `measure_distance` → `-1`,
`read_data` → `(None, None)`), so the calls are total, every field is
overwritten, and the `except` branch that would set
`system_status = 'error'` is unreachable. -/

namespace SensorMonitoringSystem

/-- The `system_status` field of a composed reading. -/
inductive SystemStatus where
  | running
  | error
deriving DecidableEq

/-- One composed `sensor_data` snapshot.  `temperature_c` and
`humidity_percent` are `float` or `None` in Python (the initial `0.0` is
always overwritten), hence `Option ℚ`; `distance_cm` is always a number
(`-1` on failure). -/
structure SensorData where
  motion_detected : Bool
  distance_cm : ℚ
  temperature_c : Option ℚ
  humidity_percent : Option ℚ
  system_status : SystemStatus

/-- `SensorMonitoringSystem.read_sensors`, as a function of the per-tick
hardware observations: the motion line state, the echo pulse duration and
the DHT transducer responses. -/
def read_sensors (motion_line : Option Bool) (echo : Option ℚ)
    (dht : ℕ → Option (ℚ × ℚ)) : SensorData :=
  { motion_detected := MotionSensor.detect_motion motion_line
    distance_cm := DistanceSensor.measure_distance echo
    temperature_c := (TemperatureHumiditySensor.read_data dht).map Prod.fst
    humidity_percent := (TemperatureHumiditySensor.read_data dht).map Prod.snd
    system_status := SystemStatus.running }

/-- `SensorMonitoringSystem.authenticate_user`: when `wait_for_card`
succeeds, returns `validate_card` of the read id; when it fails the
Python function falls through and returns `None` (embedded as `none`). -/
def authenticate_user (cards : Finset String) (wait_result : Bool)
    (card_id : Option String) : Option Bool :=
  if wait_result then
    if NFCReader.validate_card cards card_id then some true else some false
  else none

/-- The hardware observations of one polling tick. -/
structure TickEnv where
  motion_line : Option Bool
  echo : Option ℚ
  dht : ℕ → Option (ℚ × ℚ)

/-- `SensorMonitoringSystem.run`, as its authentication gate and the
readings the sensor loop publishes: the result is
`(entered the Running state, published readings)`.  Without `skip_auth`,
`if not self.authenticate_user(): return` exits before `is_running` is
set (`None` and `False` are both falsy), so the sensor loop never ticks
and nothing is published; otherwise the loop publishes one
`read_sensors` snapshot per tick. -/
def run (skip_auth : Bool) (cards : Finset String) (wait_result : Bool)
    (card_id : Option String) (ticks : List TickEnv) : Bool × List SensorData :=
  let is_authenticated :=
    if skip_auth then true
    else
      match authenticate_user cards wait_result card_id with
      | some b => b
      | none => false
  if is_authenticated then
    (true, ticks.map fun e => read_sensors e.motion_line e.echo e.dht)
  else (false, [])

end SensorMonitoringSystem

/-- C2 counterexample: a tick on which the distance sensor fails (echo
timeout) while the other sensors succeed publishes a reading with
`status = running` that carries the numeric sentinel `-1` in
`distance_cm` — a per-sensor failure represented as a numeric value, not
as an absent field. -/
theorem C2_sentinel_in_published_reading :
    (SensorMonitoringSystem.read_sensors (some false) none
        (fun _ => some (50, 20))).system_status =
      SensorMonitoringSystem.SystemStatus.running ∧
    (SensorMonitoringSystem.read_sensors (some false) none
        (fun _ => some (50, 20))).distance_cm = -1 :=
  ⟨rfl, rfl⟩

/-- C2 (amended): a published reading's status is always `running` (the
`error` branch is unreachable because every driver catches its own
failures); a distance-sensor failure is carried as the numeric sentinel
`-1` in `distance_cm`, while temperature/humidity failures are carried as
explicit missing markers (`None`). -/
theorem C2_failure_field_encoding (motion_line : Option Bool) (echo : Option ℚ)
    (dht : ℕ → Option (ℚ × ℚ)) :
    (SensorMonitoringSystem.read_sensors motion_line echo dht).system_status =
      SensorMonitoringSystem.SystemStatus.running ∧
    (DistanceSensor.measure_distance echo = -1 →
      (SensorMonitoringSystem.read_sensors motion_line echo dht).distance_cm = -1) ∧
    (TemperatureHumiditySensor.read_data dht = none →
      (SensorMonitoringSystem.read_sensors motion_line echo dht).temperature_c = none ∧
      (SensorMonitoringSystem.read_sensors motion_line echo dht).humidity_percent = none) := by
  refine ⟨rfl, fun h => ?_, fun h => ?_⟩
  · simp [SensorMonitoringSystem.read_sensors, h]
  · constructor <;> simp [SensorMonitoringSystem.read_sensors, h]

/-- Witness for C2 (amended): a tick on which the distance sensor times
out and every DHT attempt returns missing values. -/
theorem C2_failure_field_encoding_witness :
    DistanceSensor.measure_distance none = -1 ∧
    TemperatureHumiditySensor.read_data (fun _ => none) = none ∧
    (SensorMonitoringSystem.read_sensors (some true) none (fun _ => none)).distance_cm = -1 ∧
    (SensorMonitoringSystem.read_sensors (some true) none
        (fun _ => none)).temperature_c = none :=
  ⟨rfl, rfl,
    (C2_failure_field_encoding (some true) none (fun _ => none)).2.1 rfl,
    ((C2_failure_field_encoding (some true) none (fun _ => none)).2.2 rfl).1⟩

/-- C6 counterexample: on a tick where every sensor fails, the composed
reading still carries the numeric sentinel `-1` for the distance field —
not an absent field — and its overall status is `running`, not `error`. -/
theorem C6_all_failed_tick :
    (SensorMonitoringSystem.read_sensors none none (fun _ => none)).distance_cm = -1 ∧
    (SensorMonitoringSystem.read_sensors none none (fun _ => none)).system_status =
      SensorMonitoringSystem.SystemStatus.running :=
  ⟨rfl, rfl⟩

/-- C6 (amended): the composed reading's overall status is `running` on
every tick, no matter how many sensors failed: each driver catches its own
failures (encoding them as `-1` / `False` / `None` field values), so the
`error` status is unreachable and in particular any tick with at least
one successful sensor has status `running`. -/
theorem C6_status_always_running (motion_line : Option Bool) (echo : Option ℚ)
    (dht : ℕ → Option (ℚ × ℚ)) :
    (SensorMonitoringSystem.read_sensors motion_line echo dht).system_status =
      SensorMonitoringSystem.SystemStatus.running := rfl

/-- C8: when the presented card fails validation and `skip_auth` is not
set, `run` terminates without entering the Running state: no sensor
polling tick occurs and no reading is published, whatever readings the
ticks would have produced.  (This also covers a failed `wait_for_card`,
where `authenticate_user` returns the falsy `None`.) -/
theorem C8_auth_failure_never_running (cards : Finset String) (wait_result : Bool)
    (card_id : Option String) (ticks : List SensorMonitoringSystem.TickEnv)
    (hv : NFCReader.validate_card cards card_id = false) :
    SensorMonitoringSystem.run false cards wait_result card_id ticks = (false, []) := by
  rw [SensorMonitoringSystem.run, SensorMonitoringSystem.authenticate_user]
  cases wait_result
  · simp
  · simp [hv]

/-- Witness for C8: the unauthorized card id `"DEADBEEF"` against the
startup authorized set. -/
theorem C8_auth_failure_never_running_witness :
    NFCReader.validate_card NFCReader.load_authorized_cards (some "DEADBEEF") = false ∧
    SensorMonitoringSystem.run false NFCReader.load_authorized_cards true
        (some "DEADBEEF") [] = (false, []) :=
  have hv : NFCReader.validate_card NFCReader.load_authorized_cards
      (some "DEADBEEF") = false := by decide
  ⟨hv, C8_auth_failure_never_running NFCReader.load_authorized_cards true
    (some "DEADBEEF") [] hv⟩

/-! ## Shutdown (`SensorMonitoringSystem.shutdown`, plus
`MotionSensor.cleanup`, `DistanceSensor.cleanup`,
`TemperatureHumiditySensor.cleanup`, `NFCReader.cleanup`)

Resource state: which GPIO lines this process still holds and whether the
NFC frontend handle (`self.clf`) is open.  `GPIO.cleanup(channels)`
releases only the channels the program still holds (cleaning an
already-released channel is a warning-level no-op), `NFCReader.cleanup`
is guarded by `if self.clf:` and nulls the handle, and the temperature
sensor's cleanup touches no resource.  Every cleanup body is wrapped in
`try/except`, so `shutdown` never raises; it is embedded as a total
function returning the new state together with the list of
release events actually performed. -/

namespace Shutdown

/-- The releasable resources: the three GPIO lines and the NFC handle. -/
inductive Resource where
  | motionPin
  | triggerPin
  | echoPin
  | nfcHandle
deriving DecidableEq

/-- The resource-relevant state of the system. -/
structure SystemState where
  is_running : Bool
  motion_claimed : Bool
  trigger_claimed : Bool
  echo_claimed : Bool
  clf_open : Bool

/-- The freshly initialized system: all lines claimed, handle open. -/
def initState : SystemState :=
  { is_running := true, motion_claimed := true, trigger_claimed := true,
    echo_claimed := true, clf_open := true }

/-- `SensorMonitoringSystem.shutdown`: set `is_running = False`, then run
the four component cleanups.  The second component of the result lists
the release events that actually happened. -/
def shutdown (s : SystemState) : SystemState × List Resource :=
  let motion_released := if s.motion_claimed then [Resource.motionPin] else []
  let distance_released :=
    (if s.trigger_claimed then [Resource.triggerPin] else []) ++
      (if s.echo_claimed then [Resource.echoPin] else [])
  let nfc_released := if s.clf_open then [Resource.nfcHandle] else []
  (⟨false, false, false, false, false⟩,
    motion_released ++ distance_released ++ nfc_released)

end Shutdown

/-- C9: `shutdown` is idempotent and releases each resource exactly once:
a second call after a completed shutdown performs no release event and
leaves the state unchanged (and, the cleanups being wrapped in
`try/except`, it cannot raise); the first call's release events are
duplicate-free, and from the fully initialized state they are exactly the
three GPIO lines and the reader handle. -/
theorem C9_shutdown_idempotent (s : Shutdown.SystemState) :
    (Shutdown.shutdown (Shutdown.shutdown s).1).2 = [] ∧
    (Shutdown.shutdown (Shutdown.shutdown s).1).1 = (Shutdown.shutdown s).1 ∧
    (Shutdown.shutdown s).2.Nodup ∧
    (Shutdown.shutdown Shutdown.initState).2 =
      [Shutdown.Resource.motionPin, Shutdown.Resource.triggerPin,
        Shutdown.Resource.echoPin, Shutdown.Resource.nfcHandle] := by
  obtain ⟨r, m, t, e, c⟩ := s
  refine ⟨rfl, rfl, ?_, rfl⟩
  cases r <;> cases m <;> cases t <;> cases e <;> cases c <;> decide
